import Mathlib

set_option maxRecDepth 100000

/-!
# Verification of the BufPay Node.js SDK core (`bufpay.js`)

A shallow embedding of the BufPay payment-gateway client: the MD5-based
signing routine `#createSignature`, the `createPayment` / `queryPayment`
request builders, the `verifyNotification` webhook predicate, and the
Express notification route `createBufPayMiddleware`.

JavaScript values that flow through these functions are modelled by `JSVal`
(strings, null and undefined); machine integers inside MD5 are `Nat`
reduced modulo `2^32` explicitly.  Network calls are modelled by passing
the would-be HTTP request to an explicit gateway function, so "no network
call happens" is expressed as independence from that function.
-/

/-! ## MD5 (RFC 1321), over byte lists

The node call chain createHash md5, update with utf8 bytes, digest hex is
modelled by `md5Hex` on the UTF-8 bytes of the string.  All words are `Nat` kept below `2^32`
by explicit `% 4294967296`. -/

/-- Modulus of the 32-bit MD5 arithmetic, `2 ^ 32`. -/
def m32 : Nat := 4294967296

/-- Modulus of the message-length field, `2 ^ 64`. -/
def m64 : Nat := 18446744073709551616

/-- Rotate a 32-bit word (a `Nat` below `2^32`) left by `n` bits. -/
def rotl (x n : Nat) : Nat := (x * 2 ^ n) % m32 + x / 2 ^ (32 - n)

/-- Bitwise NOT on a 32-bit word, as XOR with all-ones. -/
def not32 (x : Nat) : Nat := x ^^^ 4294967295

/-- MD5 round function F (rounds 0–15). -/
def mdF (b c d : Nat) : Nat := (b &&& c) ||| (not32 b &&& d)

/-- MD5 round function G (rounds 16–31). -/
def mdG (b c d : Nat) : Nat := (d &&& b) ||| (not32 d &&& c)

/-- MD5 round function H (rounds 32–47). -/
def mdH (b c d : Nat) : Nat := b ^^^ c ^^^ d

/-- MD5 round function I (rounds 48–63). -/
def mdI (b c d : Nat) : Nat := c ^^^ (b ||| not32 d)

/-- Table of the 64 sine-derived MD5 constants. -/
def kTable : List Nat :=
  [0xd76aa478, 0xe8c7b756, 0x242070db, 0xc1bdceee,
   0xf57c0faf, 0x4787c62a, 0xa8304613, 0xfd469501,
   0x698098d8, 0x8b44f7af, 0xffff5bb1, 0x895cd7be,
   0x6b901122, 0xfd987193, 0xa679438e, 0x49b40821,
   0xf61e2562, 0xc040b340, 0x265e5a51, 0xe9b6c7aa,
   0xd62f105d, 0x02441453, 0xd8a1e681, 0xe7d3fbc8,
   0x21e1cde6, 0xc33707d6, 0xf4d50d87, 0x455a14ed,
   0xa9e3e905, 0xfcefa3f8, 0x676f02d9, 0x8d2a4c8a,
   0xfffa3942, 0x8771f681, 0x6d9d6122, 0xfde5380c,
   0xa4beea44, 0x4bdecfa9, 0xf6bb4b60, 0xbebfbc70,
   0x289b7ec6, 0xeaa127fa, 0xd4ef3085, 0x04881d05,
   0xd9d4d039, 0xe6db99e5, 0x1fa27cf8, 0xc4ac5665,
   0xf4292244, 0x432aff97, 0xab9423a7, 0xfc93a039,
   0x655b59c3, 0x8f0ccc92, 0xffeff47d, 0x85845dd1,
   0x6fa87e4f, 0xfe2ce6e0, 0xa3014314, 0x4e0811a1,
   0xf7537e82, 0xbd3af235, 0x2ad7d2bb, 0xeb86d391]

/-- The 64 per-round left-rotation amounts. -/
def sTable : List Nat :=
  [7, 12, 17, 22, 7, 12, 17, 22, 7, 12, 17, 22, 7, 12, 17, 22,
   5,  9, 14, 20, 5,  9, 14, 20, 5,  9, 14, 20, 5,  9, 14, 20,
   4, 11, 16, 23, 4, 11, 16, 23, 4, 11, 16, 23, 4, 11, 16, 23,
   6, 10, 15, 21, 6, 10, 15, 21, 6, 10, 15, 21, 6, 10, 15, 21]

/-- Message-word index used by round `i`. -/
def gIndex (i : Nat) : Nat :=
  if i < 16 then i
  else if i < 32 then (5 * i + 1) % 16
  else if i < 48 then (3 * i + 5) % 16
  else (7 * i) % 16

/-- The 32-bit little-endian word at position `g` of a 64-byte chunk. -/
def chunkWord (chunk : List Nat) (g : Nat) : Nat :=
  chunk.getD (4 * g) 0 + 256 * chunk.getD (4 * g + 1) 0 +
    65536 * chunk.getD (4 * g + 2) 0 + 16777216 * chunk.getD (4 * g + 3) 0

/-- One MD5 round: state `(a, b, c, d)` updated with round index `i`. -/
def md5Round (chunk : List Nat) (st : Nat × Nat × Nat × Nat) (i : Nat) :
    Nat × Nat × Nat × Nat :=
  let a := st.1
  let b := st.2.1
  let c := st.2.2.1
  let d := st.2.2.2
  let f :=
    if i < 16 then mdF b c d
    else if i < 32 then mdG b c d
    else if i < 48 then mdH b c d
    else mdI b c d
  let f' := (f + a + kTable.getD i 0 + chunkWord chunk (gIndex i)) % m32
  (d, (b + rotl f' (sTable.getD i 0)) % m32, b, c)

/-- Process one 64-byte chunk: 64 rounds, then add into the running state. -/
def md5Chunk (st : Nat × Nat × Nat × Nat) (chunk : List Nat) :
    Nat × Nat × Nat × Nat :=
  let r := (List.range 64).foldl (md5Round chunk) st
  ((st.1 + r.1) % m32, (st.2.1 + r.2.1) % m32,
   (st.2.2.1 + r.2.2.1) % m32, (st.2.2.2 + r.2.2.2) % m32)

/-- Fold `md5Chunk` over successive 64-byte chunks.  Fuel-indexed structural
recursion so that the kernel can evaluate it; fuel at least the byte count
suffices since every step strictly shortens a non-empty list. -/
def md5Chunks : Nat → Nat × Nat × Nat × Nat → List Nat → Nat × Nat × Nat × Nat
  | 0, st, _ => st
  | _ + 1, st, [] => st
  | fuel + 1, st, bytes => md5Chunks fuel (md5Chunk st (bytes.take 64)) (bytes.drop 64)

/-- Initial MD5 state. -/
def md5Init : Nat × Nat × Nat × Nat := (0x67452301, 0xefcdab89, 0x98badcfe, 0x10325476)

/-- Little-endian bytes of the 64-bit message length `8·L mod 2^64`. -/
def lenBytes (L : Nat) : List Nat :=
  let n := 8 * L % m64
  [n % 256, n / 256 % 256, n / 65536 % 256, n / 16777216 % 256,
   n / 4294967296 % 256, n / 1099511627776 % 256,
   n / 281474976710656 % 256, n / 72057594037927936 % 256]

/-- MD5 padding: one fixed marker byte, zeros to 56 mod 64, then the 64-bit bit length. -/
def padMessage (msg : List Nat) : List Nat :=
  msg ++ 0x80 :: List.replicate ((119 - msg.length % 64) % 64) 0 ++ lenBytes msg.length

/-- The four final state words, each serialized as 4 little-endian bytes. -/
def wordLE (w : Nat) : List Nat :=
  [w % 256, w / 256 % 256, w / 65536 % 256, w / 16777216 % 256]

/-- The 16-byte MD5 digest of a byte list. -/
def md5Bytes (msg : List Nat) : List Nat :=
  let padded := padMessage msg
  let st := md5Chunks padded.length md5Init padded
  wordLE st.1 ++ wordLE st.2.1 ++ wordLE st.2.2.1 ++ wordLE st.2.2.2

/-- Lowercase hex digit for `n % 16`. -/
def hexDigitChar (n : Nat) : Char :=
  match n % 16 with
  | 0 => '0' | 1 => '1' | 2 => '2' | 3 => '3'
  | 4 => '4' | 5 => '5' | 6 => '6' | 7 => '7'
  | 8 => '8' | 9 => '9' | 10 => 'a' | 11 => 'b'
  | 12 => 'c' | 13 => 'd' | 14 => 'e' | _ => 'f'

/-- Two lowercase hex characters for one byte. -/
def byteHexChars (b : Nat) : List Char := [hexDigitChar (b / 16), hexDigitChar b]

/-- The lowercase 32-character hex characters of an MD5 digest. -/
def md5HexChars (msg : List Nat) : List Char :=
  (md5Bytes msg).flatMap byteHexChars

/-- Lowercase hex MD5 digest as a string, as digest hex returns it. -/
def md5Hex (msg : List Nat) : String := ⟨md5HexChars msg⟩

/-- UTF-8 encoding of one Unicode code point. -/
def utf8EncodeChar (n : Nat) : List Nat :=
  if n < 128 then [n]
  else if n < 2048 then [192 + n / 64, 128 + n % 64]
  else if n < 65536 then [224 + n / 4096, 128 + n / 64 % 64, 128 + n % 64]
  else [240 + n / 262144, 128 + n / 4096 % 64, 128 + n / 64 % 64, 128 + n % 64]

/-- UTF-8 bytes of a string, as the node hash update consumes them. -/
def utf8Bytes (s : String) : List Nat :=
  s.data.flatMap (fun c => utf8EncodeChar c.toNat)

/-! ## JavaScript values and the BufPay client -/

/-- The JavaScript values that flow through the SDK: strings, `null`, and
`undefined` (a destructured missing property reads as undefined). -/
inductive JSVal where
  | vstr (s : String)
  | vnull
  | vundef
deriving DecidableEq

/-- JavaScript string coercion, as String applies it. -/
def jsString : JSVal → String
  | .vstr s => s
  | .vnull => "null"
  | .vundef => "undefined"

/-- JavaScript truthiness of a `JSVal`: `null`, `undefined` and `""` are
falsy, every other string is truthy. -/
def truthy : JSVal → Bool
  | .vstr s => decide (s ≠ "")
  | _ => false

/-- Filter used by the private signing routine: keeps a value when it is
neither undefined nor null. -/
def isPresent : JSVal → Bool
  | .vstr _ => true
  | _ => false

/-- A BufPay client instance, as the constructor builds it from an
application id and a shared secret. -/
structure BufPay where
  appId : String
  appSecret : String

/-- Base URL field, set by the constructor to a fixed constant. -/
def BufPay.baseUrl (_ : BufPay) : String := "https://bufpay.com/api"

/-- The private signing routine: drop null and undefined parameters, coerce
the rest to strings, join with no delimiter, MD5 over the UTF-8 bytes, hex
digest, uppercased. -/
def createSignature (params : List JSVal) : String :=
  let concatenated := String.join ((params.filter isPresent).map jsString)
  ⟨(md5HexChars (utf8Bytes concatenated)).map Char.toUpper⟩

/-- An inbound webhook notification body, as destructured by
`verifyNotification`: each field holds the value of the property, or undefined when
the property is missing. -/
structure NotificationPayload where
  aoid : JSVal
  order_id : JSVal
  order_uid : JSVal
  price : JSVal
  pay_price : JSVal
  sign : JSVal
deriving DecidableEq

/-- Webhook verification: return false when any of the six fields
is falsy, otherwise compare `sign` against the recomputed signature with
strict equality. -/
def verifyNotification (c : BufPay) (p : NotificationPayload) : Bool :=
  if !truthy p.aoid || !truthy p.order_id || !truthy p.order_uid ||
      !truthy p.price || !truthy p.pay_price || !truthy p.sign then
    false
  else
    let expectedSignature := createSignature
      [p.aoid, p.order_id, p.order_uid, p.price, p.pay_price, .vstr c.appSecret]
    decide (p.sign = .vstr expectedSignature)

/-- Argument object of the payment-creation call, after destructuring: the
six mandatory properties read as undefined when missing; the two URL
fields get an empty-string default when the property is undefined. -/
structure PaymentParams where
  name : JSVal
  payType : JSVal
  price : JSVal
  orderId : JSVal
  orderUid : JSVal
  notifyUrl : JSVal
  returnUrl : JSVal
  feedbackUrl : JSVal

/-- Destructuring default of the two optional URL fields: the empty string,
applied exactly when the property is undefined. -/
def orDefaultEmpty (v : JSVal) : JSVal :=
  if v = .vundef then .vstr "" else v

/-- The HTTP POST that the payment-creation call hands to axios: URL and the
form-urlencoded fields, every value coerced to a string by the URL search
params constructor. -/
structure CreateRequest where
  url : String
  name : String
  pay_type : String
  price : String
  order_id : String
  order_uid : String
  notify_url : String
  return_url : String
  feedback_url : String
  sign : String
deriving DecidableEq

/-- The request `createPayment` builds for a parameter object: `none` when
validation rejects the parameters, before any signature enters a request. -/
def createPaymentRequest (c : BufPay) (p : PaymentParams) : Option CreateRequest :=
  let returnUrl := orDefaultEmpty p.returnUrl
  let feedbackUrl := orDefaultEmpty p.feedbackUrl
  if !truthy p.name || !truthy p.payType || !truthy p.price ||
      !truthy p.orderId || !truthy p.orderUid || !truthy p.notifyUrl then
    none
  else
    let signature := createSignature
      [p.name, p.payType, p.price, p.orderId, p.orderUid, p.notifyUrl,
       returnUrl, feedbackUrl, .vstr c.appSecret]
    some
      { url := c.baseUrl ++ "/pay/" ++ c.appId ++ "?format=json"
        name := jsString p.name
        pay_type := jsString p.payType
        price := jsString p.price
        order_id := jsString p.orderId
        order_uid := jsString p.orderUid
        notify_url := jsString p.notifyUrl
        return_url := jsString returnUrl
        feedback_url := jsString feedbackUrl
        sign := signature }

/-- Payment creation: validation error, or the answer of the gateway on the
built request — a success passes the response data through unchanged, a
failure wraps the message.  The gateway (axios POST) is an
explicit argument, so a result independent of it is a result reached with
no network call. -/
def createPayment {α : Type} (c : BufPay) (p : PaymentParams)
    (gateway : CreateRequest → Except String α) : Except String α :=
  match createPaymentRequest c p with
  | none => .error "Missing required payment parameters"
  | some req =>
    match gateway req with
    | .ok data => .ok data
    | .error msg => .error ("Payment creation failed: " ++ msg)

/-- Payment query: validation error on a falsy identifier, otherwise the
answer of the gateway for the query URL — response data passed through
unchanged on success, the failure message wrapped on error. -/
def queryPayment {α : Type} (c : BufPay) (aoid : JSVal)
    (gateway : String → Except String α) : Except String α :=
  if !truthy aoid then
    .error "AOID is required"
  else
    match gateway (c.baseUrl ++ "/query/" ++ jsString aoid) with
    | .ok data => .ok data
    | .error msg => .error ("Payment query failed: " ++ msg)

/-- An HTTP response of the notification route: status code and body. -/
structure RouteResponse where
  status : Nat
  body : String
deriving DecidableEq

/-- Handler of the notification route on a parsed JSON body: the response it
sends, paired with the list of arguments the success callback is invoked
on, in order.  `hasCallback` states whether a callback function was
supplied to the middleware factory. -/
def createBufPayMiddleware (c : BufPay) (hasCallback : Bool)
    (body : NotificationPayload) : RouteResponse × List NotificationPayload :=
  if !verifyNotification c body then
    ({ status := 400, body := "Invalid signature" }, [])
  else if hasCallback then
    ({ status := 200, body := "OK" }, [body])
  else
    ({ status := 200, body := "OK" }, [])

/-- Decidable predicate for an uppercase hexadecimal character. -/
def isUpperHexChar (c : Char) : Bool :=
  ('0' ≤ c && c ≤ '9') || ('A' ≤ c && c ≤ 'F')

/-- JavaScript toLowerCase, restricted to the ASCII mapping it performs on
hex strings. -/
def jsToLower (s : String) : String := ⟨s.data.map Char.toLower⟩

/-- The absence test of the spec: a value is absent when it is null or
undefined. -/
def isAbsent : JSVal → Bool
  | .vstr _ => false
  | _ => true

/-- Modelled from the wording of the claim for comparison with the source
embedding `createSignature`: drop exactly the null and undefined entries,
coerce the remaining values to text, concatenate them in order with no
delimiter, hash with MD5, return the digest as uppercase hexadecimal. -/
def specSignature (params : List JSVal) : String :=
  let kept := params.filter (fun v => !(v == JSVal.vnull) && !(v == JSVal.vundef))
  let text := (kept.map jsString).foldl (· ++ ·) ""
  ⟨(md5HexChars (utf8Bytes text)).map Char.toUpper⟩

/-! ## Helper lemmas about the digest and the signature -/

example : md5Hex (utf8Bytes "") = "d41d8cd98f00b204e9800998ecf8427e" := by decide
example : md5Hex (utf8Bytes "abc") = "900150983cd24fb0d6963f7d28e17f72" := by decide
example :
    createSignature [.vstr "A1", .vstr "O1", .vstr "U1", .vstr "10.00",
      .vstr "9.50", .vstr "s3cr3t"] = "74B9C32E2193536FABA89038613BA834" := by decide
example :
    createSignature [.vstr "A1", .vstr "O1", .vstr "U1", .vstr "10.00",
      .vstr "2093695", .vstr "s3cr3t"] = "28406799221490322775722568649766" := by decide


lemma md5Bytes_length (msg : List Nat) : (md5Bytes msg).length = 16 := by
  simp [md5Bytes, wordLE]

lemma md5HexChars_length (msg : List Nat) : (md5HexChars msg).length = 32 := by
  simp [md5HexChars, md5Bytes, wordLE, byteHexChars]

lemma mem_md5HexChars (msg : List Nat) (c : Char) (hc : c ∈ md5HexChars msg) :
    ∃ n, c = hexDigitChar n := by
  unfold md5HexChars at hc
  rw [List.mem_flatMap] at hc
  obtain ⟨b, _, hb⟩ := hc
  simp only [byteHexChars, List.mem_cons, List.not_mem_nil, or_false] at hb
  rcases hb with h | h
  · exact ⟨b / 16, h⟩
  · exact ⟨b, h⟩

lemma isUpperHexChar_toUpper_hexDigit (n : Nat) :
    isUpperHexChar (hexDigitChar n).toUpper = true := by
  unfold hexDigitChar
  have h16 : n % 16 = 0 ∨ n % 16 = 1 ∨ n % 16 = 2 ∨ n % 16 = 3 ∨ n % 16 = 4 ∨
      n % 16 = 5 ∨ n % 16 = 6 ∨ n % 16 = 7 ∨ n % 16 = 8 ∨ n % 16 = 9 ∨
      n % 16 = 10 ∨ n % 16 = 11 ∨ n % 16 = 12 ∨ n % 16 = 13 ∨ n % 16 = 14 ∨
      n % 16 = 15 := by omega
  rcases h16 with h | h | h | h | h | h | h | h | h | h | h | h | h | h | h | h <;>
    rw [h] <;> decide

lemma createSignature_length (params : List JSVal) :
    (createSignature params).length = 32 := by
  show (String.mk _).length = 32
  simp [String.length, md5HexChars_length]

lemma createSignature_ne_empty (params : List JSVal) : createSignature params ≠ "" := by
  intro h
  have := createSignature_length params
  rw [h] at this
  simp [String.length] at this

lemma createSignature_upperHex (params : List JSVal) (c : Char)
    (hc : c ∈ (createSignature params).data) : isUpperHexChar c = true := by
  unfold createSignature at hc
  simp only [String.data] at hc
  rw [List.mem_map] at hc
  obtain ⟨c₀, hc₀, rfl⟩ := hc
  obtain ⟨n, rfl⟩ := mem_md5HexChars _ c₀ hc₀
  exact isUpperHexChar_toUpper_hexDigit n

lemma createSignature_six (a b c d e f : String) :
    createSignature [.vstr a, .vstr b, .vstr c, .vstr d, .vstr e, .vstr f] =
      ⟨(md5HexChars (utf8Bytes (a ++ b ++ c ++ d ++ e ++ f))).map Char.toUpper⟩ := by
  have h : String.join
      (([JSVal.vstr a, .vstr b, .vstr c, .vstr d, .vstr e,
        .vstr f].filter isPresent).map jsString) = a ++ b ++ c ++ d ++ e ++ f := rfl
  unfold createSignature
  rw [h]

lemma truthy_vstr_of_ne {s : String} (h : s ≠ "") : truthy (.vstr s) = true := by
  simp [truthy, h]

lemma jsToLower_length (s : String) : (jsToLower s).length = s.length := by
  show (s.data.map Char.toLower).length = s.data.length
  simp

lemma truthy_eq_false_of_isAbsent {v : JSVal} (h : isAbsent v = true) :
    truthy v = false := by
  cases v <;> simp_all [isAbsent, truthy]

lemma verifyNotification_all_truthy (c : BufPay) (p : NotificationPayload)
    (t1 : truthy p.aoid = true) (t2 : truthy p.order_id = true)
    (t3 : truthy p.order_uid = true) (t4 : truthy p.price = true)
    (t5 : truthy p.pay_price = true) (t6 : truthy p.sign = true) :
    verifyNotification c p =
      decide (p.sign = .vstr (createSignature
        [p.aoid, p.order_id, p.order_uid, p.price, p.pay_price, .vstr c.appSecret])) := by
  simp [verifyNotification, t1, t2, t3, t4, t5, t6]

/-! ## Claims -/

/-- C10: `verifyNotification` treats a present-but-empty-string value of any
of the six fields the same as an absent one: whenever any of them equals
the empty string the result is `false` — for every client, in particular
for every shared secret, so no signature comparison can intervene — even
when the sign field is exactly the correct signature over those values. -/
theorem c10_empty_field_rejected (appId sec : String) (p : NotificationPayload)
    (h : p.aoid = .vstr "" ∨ p.order_id = .vstr "" ∨ p.order_uid = .vstr "" ∨
      p.price = .vstr "" ∨ p.pay_price = .vstr "" ∨ p.sign = .vstr "") :
    verifyNotification ⟨appId, sec⟩ p = false := by
  rcases h with h | h | h | h | h | h <;> simp [verifyNotification, h, truthy]

/-- Witness for C10: the payload carries the exactly correct signature over
its values (including the empty `pay_price`), yet verification is false. -/
theorem c10_witness :
    verifyNotification ⟨"app", "s3cr3t"⟩
      { aoid := .vstr "A1", order_id := .vstr "O1", order_uid := .vstr "U1",
        price := .vstr "10.00", pay_price := .vstr "",
        sign := .vstr (createSignature [.vstr "A1", .vstr "O1", .vstr "U1",
          .vstr "10.00", .vstr "", .vstr "s3cr3t"]) } = false :=
  c10_empty_field_rejected "app" "s3cr3t" _ (by decide)

/-- C3: on the spec data model of payloads — records of JavaScript values,
a missing property reading as undefined — `verifyNotification` always
returns a boolean (the embedding is a total function into `Bool`), and the
absence (null or undefined) of any one of the six mandatory fields makes
it return `false` rather than raise an error. -/
theorem c3_total_and_absent_field_rejected (c : BufPay) (p : NotificationPayload) :
    (verifyNotification c p = true ∨ verifyNotification c p = false) ∧
    ((isAbsent p.aoid = true ∨ isAbsent p.order_id = true ∨ isAbsent p.order_uid = true ∨
        isAbsent p.price = true ∨ isAbsent p.pay_price = true ∨ isAbsent p.sign = true) →
      verifyNotification c p = false) := by
  constructor
  · exact Bool.eq_false_or_eq_true _
  · intro h
    rcases h with h | h | h | h | h | h <;>
      simp [verifyNotification, truthy_eq_false_of_isAbsent h]

/-- Witness for C3: a payload missing its order-id property (undefined on
destructuring) is rejected. -/
theorem c3_witness :
    verifyNotification ⟨"app", "s3cr3t"⟩
      { aoid := .vstr "A1", order_id := .vundef, order_uid := .vstr "U1",
        price := .vstr "10.00", pay_price := .vstr "9.50",
        sign := .vstr "74B9C32E2193536FABA89038613BA834" } = false :=
  (c3_total_and_absent_field_rejected ⟨"app", "s3cr3t"⟩ _).2 (by decide)

/-- C2 (amended): the round-trip of the signing scheme holds for every tuple
of truthy field values — present and non-empty; present-but-empty values
are rejected by the falsiness guard, see the counterexample — and every
secret: a payload signed with the signing function over the tuple plus the
secret verifies on a client holding the same secret. -/
theorem c2_roundtrip (appId sec a oid ouid pr pp : String)
    (h₁ : a ≠ "") (h₂ : oid ≠ "") (h₃ : ouid ≠ "") (h₄ : pr ≠ "") (h₅ : pp ≠ "") :
    verifyNotification ⟨appId, sec⟩
      { aoid := .vstr a, order_id := .vstr oid, order_uid := .vstr ouid,
        price := .vstr pr, pay_price := .vstr pp,
        sign := .vstr (createSignature
          [.vstr a, .vstr oid, .vstr ouid, .vstr pr, .vstr pp, .vstr sec]) } = true := by
  rw [verifyNotification_all_truthy _ _ (truthy_vstr_of_ne h₁) (truthy_vstr_of_ne h₂)
    (truthy_vstr_of_ne h₃) (truthy_vstr_of_ne h₄) (truthy_vstr_of_ne h₅)
    (truthy_vstr_of_ne (createSignature_ne_empty _))]
  simp

/-- Witness for C2: the round-trip at the concrete example tuple. -/
theorem c2_witness :
    verifyNotification ⟨"app", "s3cr3t"⟩
      { aoid := .vstr "A1", order_id := .vstr "O1", order_uid := .vstr "U1",
        price := .vstr "10.00", pay_price := .vstr "9.50",
        sign := .vstr (createSignature [.vstr "A1", .vstr "O1", .vstr "U1",
          .vstr "10.00", .vstr "9.50", .vstr "s3cr3t"]) } = true :=
  c2_roundtrip "app" "s3cr3t" "A1" "O1" "U1" "10.00" "9.50"
    (by decide) (by decide) (by decide) (by decide) (by decide)

/-- Counterexample to C2 as stated: the tuple `("", "O1", "U1", "10.00",
"9.50")` is made of present, non-absent values, and the payload carries
exactly the signature the signing function produces over it with secret
s3cr3t, yet verification returns `false` (the empty string is falsy). -/
theorem c2_counterexample :
    verifyNotification ⟨"app", "s3cr3t"⟩
      { aoid := .vstr "", order_id := .vstr "O1", order_uid := .vstr "U1",
        price := .vstr "10.00", pay_price := .vstr "9.50",
        sign := .vstr (createSignature [.vstr "", .vstr "O1", .vstr "U1",
          .vstr "10.00", .vstr "9.50", .vstr "s3cr3t"]) } = false := by decide

/-- C1 (amended): for payloads whose six fields are all present non-empty
strings, `verifyNotification` returns `true` iff the supplied sign field
exactly string-equals (case-sensitively) the uppercase hexadecimal MD5
digest of the concatenation aoid, order id, order uid, price, pay price
and shared secret; for the client with secret s3cr3t and the example
tuple, verification with the exact digest returns `true`, and changing
pay price to 9.51 while keeping that sign returns `false`.  (As stated,
without the non-emptiness proviso, the claim fails: see the
counterexample.) -/
theorem c1_verify_iff_md5 (appId sec a oid ouid pr pp sg : String)
    (h₁ : a ≠ "") (h₂ : oid ≠ "") (h₃ : ouid ≠ "") (h₄ : pr ≠ "")
    (h₅ : pp ≠ "") (h₆ : sg ≠ "") :
    (verifyNotification ⟨appId, sec⟩
        { aoid := .vstr a, order_id := .vstr oid, order_uid := .vstr ouid,
          price := .vstr pr, pay_price := .vstr pp, sign := .vstr sg } = true ↔
      sg = ⟨(md5HexChars (utf8Bytes (a ++ oid ++ ouid ++ pr ++ pp ++ sec))).map
        Char.toUpper⟩) ∧
    verifyNotification ⟨"appid", "s3cr3t"⟩
      { aoid := .vstr "A1", order_id := .vstr "O1", order_uid := .vstr "U1",
        price := .vstr "10.00", pay_price := .vstr "9.50",
        sign := .vstr ⟨(md5HexChars (utf8Bytes "A1O1U110.009.50s3cr3t")).map
          Char.toUpper⟩ } = true ∧
    verifyNotification ⟨"appid", "s3cr3t"⟩
      { aoid := .vstr "A1", order_id := .vstr "O1", order_uid := .vstr "U1",
        price := .vstr "10.00", pay_price := .vstr "9.51",
        sign := .vstr ⟨(md5HexChars (utf8Bytes "A1O1U110.009.50s3cr3t")).map
          Char.toUpper⟩ } = false := by
  refine ⟨?_, by decide, by decide⟩
  rw [verifyNotification_all_truthy _ _ (truthy_vstr_of_ne h₁) (truthy_vstr_of_ne h₂)
    (truthy_vstr_of_ne h₃) (truthy_vstr_of_ne h₄) (truthy_vstr_of_ne h₅)
    (truthy_vstr_of_ne h₆), createSignature_six]
  simp

/-- Witness for C1: the positive example instantiated through the theorem. -/
theorem c1_witness :
    verifyNotification ⟨"appid", "s3cr3t"⟩
      { aoid := .vstr "A1", order_id := .vstr "O1", order_uid := .vstr "U1",
        price := .vstr "10.00", pay_price := .vstr "9.50",
        sign := .vstr ⟨(md5HexChars (utf8Bytes "A1O1U110.009.50s3cr3t")).map
          Char.toUpper⟩ } = true :=
  (c1_verify_iff_md5 "appid" "s3cr3t" "A1" "O1" "U1" "10.00" "9.50" "X"
    (by decide) (by decide) (by decide) (by decide) (by decide) (by decide)).2.1

/-- Counterexample to C1 as stated: with the present-but-empty aoid, the
sign field is exactly the uppercase hexadecimal MD5 digest of the
concatenation of the six values, yet verification returns `false`, so the
claimed equivalence does not hold for this payload. -/
theorem c1_counterexample :
    verifyNotification ⟨"appid", "s3cr3t"⟩
      { aoid := .vstr "", order_id := .vstr "O1", order_uid := .vstr "U1",
        price := .vstr "10.00", pay_price := .vstr "9.50",
        sign := .vstr ⟨(md5HexChars (utf8Bytes
          ("" ++ "O1" ++ "U1" ++ "10.00" ++ "9.50" ++ "s3cr3t"))).map
          Char.toUpper⟩ } = false := by decide

/-- C7 (amended): every signature the signing function produces is a string
of exactly 32 uppercase hexadecimal characters, and verification is exact
string comparison, so whenever lowercasing actually changes a valid
signature — that is, whenever the digest contains at least one letter —
the payload with the lowercased sign fails verification.  (As stated, for
every valid signature, the claim fails: a digest can consist of digits
only, and is then fixed by lowercasing; see the counterexample.) -/
theorem c7_length_case (appId sec a oid ouid pr pp : String)
    (h₁ : a ≠ "") (h₂ : oid ≠ "") (h₃ : ouid ≠ "") (h₄ : pr ≠ "") (h₅ : pp ≠ "")
    (hletter : jsToLower (createSignature
        [.vstr a, .vstr oid, .vstr ouid, .vstr pr, .vstr pp, .vstr sec]) ≠
      createSignature [.vstr a, .vstr oid, .vstr ouid, .vstr pr, .vstr pp, .vstr sec]) :
    (∀ params : List JSVal, (createSignature params).length = 32 ∧
      ∀ ch ∈ (createSignature params).data, isUpperHexChar ch = true) ∧
    verifyNotification ⟨appId, sec⟩
      { aoid := .vstr a, order_id := .vstr oid, order_uid := .vstr ouid,
        price := .vstr pr, pay_price := .vstr pp,
        sign := .vstr (jsToLower (createSignature
          [.vstr a, .vstr oid, .vstr ouid, .vstr pr, .vstr pp, .vstr sec])) } = false := by
  refine ⟨fun params => ⟨createSignature_length params,
    fun ch hch => createSignature_upperHex params ch hch⟩, ?_⟩
  have hne : jsToLower (createSignature
      [JSVal.vstr a, .vstr oid, .vstr ouid, .vstr pr, .vstr pp, .vstr sec]) ≠ "" := by
    intro h
    have hlen := jsToLower_length (createSignature
      [JSVal.vstr a, .vstr oid, .vstr ouid, .vstr pr, .vstr pp, .vstr sec])
    rw [h, createSignature_length] at hlen
    exact absurd hlen (by decide)
  rw [verifyNotification_all_truthy _ _ (truthy_vstr_of_ne h₁) (truthy_vstr_of_ne h₂)
    (truthy_vstr_of_ne h₃) (truthy_vstr_of_ne h₄) (truthy_vstr_of_ne h₅)
    (truthy_vstr_of_ne hne)]
  simpa using hletter

/-- Witness for C7: at the example tuple the digest contains letters, its
lowercase variant differs, and the lowercased sign is rejected. -/
theorem c7_witness :
    verifyNotification ⟨"app", "s3cr3t"⟩
      { aoid := .vstr "A1", order_id := .vstr "O1", order_uid := .vstr "U1",
        price := .vstr "10.00", pay_price := .vstr "9.50",
        sign := .vstr (jsToLower (createSignature [.vstr "A1", .vstr "O1", .vstr "U1",
          .vstr "10.00", .vstr "9.50", .vstr "s3cr3t"])) } = false :=
  (c7_length_case "app" "s3cr3t" "A1" "O1" "U1" "10.00" "9.50"
    (by decide) (by decide) (by decide) (by decide) (by decide) (by decide)).2

/-- Counterexample to C7 as stated: over the tuple with pay price 2093695
and secret s3cr3t the MD5 digest consists of decimal digits only, so its
lowercase variant is the same string — and the payload carrying that
lowercase variant still passes verification. -/
theorem c7_counterexample :
    verifyNotification ⟨"app", "s3cr3t"⟩
      { aoid := .vstr "A1", order_id := .vstr "O1", order_uid := .vstr "U1",
        price := .vstr "10.00", pay_price := .vstr "2093695",
        sign := .vstr (jsToLower (createSignature [.vstr "A1", .vstr "O1", .vstr "U1",
          .vstr "10.00", .vstr "2093695", .vstr "s3cr3t"])) } = true := by decide

/-- C4: the signing function drops exactly the null/undefined entries (and
keeps present values, empty strings included), coerces the remaining
values to text, concatenates them in the caller-supplied order with no
delimiter, hashes with MD5 and returns the digest as uppercase
hexadecimal — stated as equality with `specSignature`, the definition
transcribed from the claim, plus invariance under removing null or
undefined entries anywhere in the list. -/
theorem c4_signing_pipeline :
    (∀ params : List JSVal, createSignature params = specSignature params) ∧
    (∀ l₁ l₂ : List JSVal,
      createSignature (l₁ ++ JSVal.vnull :: l₂) = createSignature (l₁ ++ l₂)) ∧
    (∀ l₁ l₂ : List JSVal,
      createSignature (l₁ ++ JSVal.vundef :: l₂) = createSignature (l₁ ++ l₂)) := by
  have hp : (fun v => !(v == JSVal.vnull) && !(v == JSVal.vundef)) = isPresent := by
    funext v; cases v <;> rfl
  refine ⟨fun params => ?_, fun l₁ l₂ => ?_, fun l₁ l₂ => ?_⟩
  · simp only [createSignature, specSignature, hp, String.join]
  · simp [createSignature, List.filter_append, isPresent]
  · simp [createSignature, List.filter_append, isPresent]

/-- C5: when any one of the six mandatory payment fields is absent, no
request is built (so no signature is part of one), and for every gateway
the result is the validation error, unwrapped — the outcome does not
depend on the gateway, so no network request is issued. -/
theorem c5_missing_field_validation (α : Type) (c : BufPay) (p : PaymentParams)
    (h : isAbsent p.name = true ∨ isAbsent p.payType = true ∨ isAbsent p.price = true ∨
      isAbsent p.orderId = true ∨ isAbsent p.orderUid = true ∨
      isAbsent p.notifyUrl = true) :
    createPaymentRequest c p = none ∧
    ∀ gateway : CreateRequest → Except String α,
      createPayment c p gateway = .error "Missing required payment parameters" := by
  have hreq : createPaymentRequest c p = none := by
    rcases h with h | h | h | h | h | h <;>
      simp [createPaymentRequest, truthy_eq_false_of_isAbsent h]
  exact ⟨hreq, fun gateway => by simp [createPayment, hreq]⟩

/-- Witness for C5: a request with a missing name fails validation for a
gateway that would accept anything. -/
theorem c5_witness :
    createPayment ⟨"app", "s3cr3t"⟩
      { name := .vundef, payType := .vstr "alipay", price := .vstr "10.00",
        orderId := .vstr "O1", orderUid := .vstr "U1",
        notifyUrl := .vstr "https://x.example/notify",
        returnUrl := .vundef, feedbackUrl := .vundef }
      (fun _ => Except.ok ()) = .error "Missing required payment parameters" :=
  (c5_missing_field_validation Unit ⟨"app", "s3cr3t"⟩ _ (by decide)).2 _

/-- C6: for every valid request the signature placed in the outgoing request
is computed over exactly the ordered nine-value tuple of name, pay type,
price, order id, order uid, notify URL, the two optional URLs after their
empty-string default, and the shared secret; the default replaces exactly
an omitted (undefined) optional URL and leaves a present string value
unchanged. -/
theorem c6_signed_tuple (c : BufPay) (p : PaymentParams)
    (h₁ : truthy p.name = true) (h₂ : truthy p.payType = true)
    (h₃ : truthy p.price = true) (h₄ : truthy p.orderId = true)
    (h₅ : truthy p.orderUid = true) (h₆ : truthy p.notifyUrl = true) :
    (createPaymentRequest c p).map CreateRequest.sign =
      some (createSignature
        [p.name, p.payType, p.price, p.orderId, p.orderUid, p.notifyUrl,
         orDefaultEmpty p.returnUrl, orDefaultEmpty p.feedbackUrl,
         .vstr c.appSecret]) ∧
    orDefaultEmpty JSVal.vundef = .vstr "" ∧
    ∀ s : String, orDefaultEmpty (.vstr s) = .vstr s := by
  refine ⟨?_, rfl, fun s => by simp [orDefaultEmpty]⟩
  simp [createPaymentRequest, h₁, h₂, h₃, h₄, h₅, h₆]

/-- Witness for C6: a concrete valid request whose returnUrl is present and
whose feedbackUrl is omitted. -/
theorem c6_witness :
    (createPaymentRequest ⟨"app", "s3cr3t"⟩
      { name := .vstr "Test Product", payType := .vstr "alipay",
        price := .vstr "10.00", orderId := .vstr "O1", orderUid := .vstr "U1",
        notifyUrl := .vstr "https://x.example/notify",
        returnUrl := .vstr "https://x.example/back",
        feedbackUrl := .vundef }).map CreateRequest.sign =
      some (createSignature
        [.vstr "Test Product", .vstr "alipay", .vstr "10.00", .vstr "O1",
         .vstr "U1", .vstr "https://x.example/notify",
         orDefaultEmpty (.vstr "https://x.example/back"),
         orDefaultEmpty .vundef, .vstr "s3cr3t"]) :=
  (c6_signed_tuple ⟨"app", "s3cr3t"⟩ _ (by decide) (by decide) (by decide)
    (by decide) (by decide) (by decide)).1

/-- C8: the webhook route handler responds HTTP 400 with body Invalid
signature and performs zero callback invocations on every body failing
verification, and on every body passing verification invokes the
callback exactly once with the parsed payload (when one is provided, and
none otherwise) before responding HTTP 200. -/
theorem c8_route_handler (c : BufPay) (hasCallback : Bool) (body : NotificationPayload) :
    (verifyNotification c body = false →
      createBufPayMiddleware c hasCallback body =
        ({ status := 400, body := "Invalid signature" }, [])) ∧
    (verifyNotification c body = true →
      createBufPayMiddleware c hasCallback body =
        ({ status := 200, body := "OK" }, if hasCallback then [body] else [])) := by
  constructor
  · intro h; simp [createBufPayMiddleware, h]
  · intro h; cases hasCallback <;> simp [createBufPayMiddleware, h]

/-- Witness for C8: a tampered body yields 400 and no callback invocation; a
correctly signed body yields 200 and exactly one invocation with it. -/
theorem c8_witness :
    createBufPayMiddleware ⟨"app", "s3cr3t"⟩ true
      { aoid := .vstr "A1", order_id := .vstr "O1", order_uid := .vstr "U1",
        price := .vstr "10.00", pay_price := .vstr "9.51",
        sign := .vstr (createSignature [.vstr "A1", .vstr "O1", .vstr "U1",
          .vstr "10.00", .vstr "9.50", .vstr "s3cr3t"]) } =
      ({ status := 400, body := "Invalid signature" }, []) ∧
    createBufPayMiddleware ⟨"app", "s3cr3t"⟩ true
      { aoid := .vstr "A1", order_id := .vstr "O1", order_uid := .vstr "U1",
        price := .vstr "10.00", pay_price := .vstr "9.50",
        sign := .vstr (createSignature [.vstr "A1", .vstr "O1", .vstr "U1",
          .vstr "10.00", .vstr "9.50", .vstr "s3cr3t"]) } =
      ({ status := 200, body := "OK" },
        [{ aoid := .vstr "A1", order_id := .vstr "O1", order_uid := .vstr "U1",
           price := .vstr "10.00", pay_price := .vstr "9.50",
           sign := .vstr (createSignature [.vstr "A1", .vstr "O1", .vstr "U1",
             .vstr "10.00", .vstr "9.50", .vstr "s3cr3t"]) }]) :=
  ⟨(c8_route_handler ⟨"app", "s3cr3t"⟩ true _).1 (by decide),
   (c8_route_handler ⟨"app", "s3cr3t"⟩ true _).2 (by decide)⟩

/-- C9: `queryPayment` fails with the validation error for every falsy
(absent or empty) identifier, for every gateway — so before any network
call — and for every truthy identifier whose remote call succeeds it
returns the response body unmodified. -/
theorem c9_query_validation_passthrough (α : Type) (c : BufPay) (aoid : JSVal) :
    (truthy aoid = false →
      ∀ gateway : String → Except String α,
        queryPayment c aoid gateway = .error "AOID is required") ∧
    (truthy aoid = true →
      ∀ (gateway : String → Except String α) (d : α),
        gateway (c.baseUrl ++ "/query/" ++ jsString aoid) = .ok d →
        queryPayment c aoid gateway = .ok d) := by
  constructor
  · intro h gateway; simp [queryPayment, h]
  · intro h gateway d hg; simp [queryPayment, h, hg]

/-- Witness for C9: an absent identifier is rejected regardless of the
gateway, and a present one passes the response body through. -/
theorem c9_witness :
    queryPayment ⟨"app", "s3cr3t"⟩ JSVal.vundef (fun _ => Except.ok 7) =
      .error "AOID is required" ∧
    queryPayment ⟨"app", "s3cr3t"⟩ (.vstr "B123") (fun _ => Except.ok 7) = .ok 7 :=
  ⟨(c9_query_validation_passthrough Nat ⟨"app", "s3cr3t"⟩ .vundef).1 (by decide) _,
   (c9_query_validation_passthrough Nat ⟨"app", "s3cr3t"⟩ (.vstr "B123")).2
     (by decide) _ 7 rfl⟩
